import Mathlib

/-!
Shallow embedding of the ML risk-scoring pipeline of the payment demo
(the modules under `src/lib/ml`): feature engineering, fraud-detection
model, SHAP-style explainer, false-decline optimizer and the ML service
facade.

Numbers are modelled as rationals.  The ambient JavaScript functions that a
pure embedding cannot compute (Math.exp, Math.log1p, the Math.random draws
used for device and account-age simulation, Date.now, the local-time
conversions of Date.getHours/getDay, and Number.toFixed formatting) are
supplied explicitly through an `Env` record, so every definition below is
executable and deterministic given the environment.  The module-level
mutable maps (`featureCache`, `userTransactionHistory`) and the service's
`predictionHistory` are threaded as an explicit `MLState`.
-/

/-- Decision values of the model: the TS union `"approve" | "review" | "decline"`. -/
inductive Decision where
  | approve
  | review
  | decline
deriving DecidableEq, Repr

/-- The fields of the TS `Transaction` interface that the ML pipeline reads
(`amount`, `timestamp`, `customerId`, `merchantName`, `paymentMethod`, `id`,
plus `currency` and `merchantId` carried along); the purely presentational
fields (status, riskLevel, email, device fingerprint, ...) are never read by
the ML modules and are not modelled. -/
structure Transaction where
  id : String
  timestamp : ℤ
  amount : ℚ
  currency : String
  paymentMethod : String
  merchantId : String
  merchantName : String
  customerId : String
deriving DecidableEq, Repr

/-- The three `Math.random()` draws of `FeatureEngineer.extractDeviceFeatures`
for one extraction call. -/
structure DeviceEnv where
  deviceRand : ℚ
  ipRand : ℚ
  shipRand : ℚ
deriving Repr

/-- Ambient JavaScript environment: clock, local-time conversion, the
transcendental Math functions, number formatting and the random draws.
`getHours t` models `new Date(t).getHours()` (0..23, local time) and
`getDay t` models `new Date(t).getDay()` (0..6); `userAgeRand u` is the
`Math.random()` draw used by `calculateUserAge` for user `u`; `toFixed d q`
models `q.toFixed(d)`. -/
structure Env where
  now : ℤ
  getHours : ℤ → ℚ
  getDay : ℤ → ℚ
  log1p : ℚ → ℚ
  exp : ℚ → ℚ
  toFixed : ℕ → ℚ → String
  userAgeRand : String → ℚ
  device : DeviceEnv

/-- The fixed-shape feature vector of `types.ts`. -/
structure FeatureVector where
  amount : ℚ
  amount_log : ℚ
  hour_of_day : ℚ
  day_of_week : ℚ
  is_weekend : ℚ
  user_age_days : ℚ
  user_txn_count_24h : ℚ
  user_txn_count_7d : ℚ
  user_avg_amount_30d : ℚ
  user_txn_frequency : ℚ
  amount_ratio_vs_avg : ℚ
  time_since_last_txn_minutes : ℚ
  device_age_days : ℚ
  ip_country_match : ℚ
  billing_shipping_match : ℚ
  merchant_fraud_rate_30d : ℚ
  merchant_avg_amount : ℚ
  payment_method_risk_score : ℚ
  is_crypto : ℚ
  is_first_transaction : ℚ
deriving DecidableEq, Repr

/-- Impact direction of a feature contribution: `"increase" | "decrease"`. -/
inductive Impact where
  | increase
  | decrease
deriving DecidableEq, Repr

/-- `FeatureContribution` of `types.ts`. -/
structure FeatureContribution where
  feature : String
  value : ℚ
  contribution : ℚ
  impact : Impact
  importance : ℚ
deriving DecidableEq, Repr

/-- `RiskExplanation` of `types.ts`; the JS `Record<string, number>` of SHAP
values is modelled as an association list in object-key insertion order. -/
structure RiskExplanation where
  topFeatures : List FeatureContribution
  riskFactors : List String
  protectiveFactors : List String
  shapValues : List (String × ℚ)
deriving DecidableEq, Repr

/-- `ModelPrediction` of `types.ts` (`timestamp: new Date()` is modelled by
the epoch-millis clock of the environment). -/
structure ModelPrediction where
  transactionId : String
  riskScore : ℤ
  fraudProbability : ℚ
  falseDeclineRisk : ℚ
  adjustedScore : ℚ
  decision : Decision
  confidence : ℚ
  features : FeatureVector
  explanation : RiskExplanation
  timestamp : ℤ
deriving DecidableEq, Repr

/-- The shared mutable module state: the `featureCache` of
`featureEngineering.ts` (only the key `user_age_days` is ever cached, so the
cache is modelled as one optional rational per user), the per-user
`userTransactionHistory` map, and the `MLService.predictionHistory` log.
Absent map keys are the defaults `none` and `[]`. -/
structure MLState where
  featureCache : String → Option ℚ
  userTransactionHistory : String → List Transaction
  predictionHistory : List ModelPrediction

/-- The empty initial module state. -/
def MLState.initial : MLState :=
  { featureCache := fun _ => none
    userTransactionHistory := fun _ => []
    predictionHistory := [] }

namespace FeatureEngineer

/-- `transaction.customerId || "anonymous"`: the empty string is falsy in JS. -/
def userIdOf (txn : Transaction) : String :=
  if txn.customerId = "" then "anonymous" else txn.customerId

/-- `getUserHistory`: read the per-user history map, defaulting to `[]`. -/
def getUserHistory (s : MLState) (userId : String) : List Transaction :=
  s.userTransactionHistory userId

/-- `calculateUserAge`: return the cached pseudo account age when a truthy
(non-zero) value is cached, otherwise draw `Math.random() * 365 * 3` from the
environment and cache it. -/
def calculateUserAge (env : Env) (s : MLState) (userId : String) : ℚ × MLState :=
  match s.featureCache userId with
  | some v =>
      if v = 0 then
        let age := env.userAgeRand userId * 365 * 3
        (age, { s with featureCache := fun u => if u = userId then some age else s.featureCache u })
      else
        (v, s)
  | none =>
      let age := env.userAgeRand userId * 365 * 3
      (age, { s with featureCache := fun u => if u = userId then some age else s.featureCache u })

/-- `countRecentTransactions`: entries whose timestamp is strictly after
`Date.now() - hours * 60 * 60 * 1000`. -/
def countRecentTransactions (env : Env) (history : List Transaction) (hours : ℚ) : ℕ :=
  (history.filter
    (fun txn => decide ((txn.timestamp : ℚ) > (env.now : ℚ) - hours * 60 * 60 * 1000))).length

/-- `calculateAverageAmount`: mean amount of the entries of the last `days`
days, `0` if there are none. -/
def calculateAverageAmount (env : Env) (history : List Transaction) (days : ℚ) : ℚ :=
  let recentTxns := history.filter
    (fun txn => decide ((txn.timestamp : ℚ) > (env.now : ℚ) - days * 24 * 60 * 60 * 1000))
  if recentTxns.length = 0 then 0
  else (recentTxns.map Transaction.amount).sum / (recentTxns.length : ℚ)

/-- Result of `extractBasicFeatures`. -/
structure BasicFeatures where
  amount : ℚ
  amount_log : ℚ
  hour_of_day : ℚ
  day_of_week : ℚ
  is_weekend : ℚ

/-- `extractBasicFeatures`. -/
def extractBasicFeatures (env : Env) (txn : Transaction) : BasicFeatures :=
  { amount := txn.amount
    amount_log := env.log1p txn.amount
    hour_of_day := env.getHours txn.timestamp / 24
    day_of_week := env.getDay txn.timestamp / 7
    is_weekend := if env.getDay txn.timestamp = 0 ∨ env.getDay txn.timestamp = 6 then 1 else 0 }

/-- Result of `extractUserFeatures`. -/
structure UserFeatures where
  user_age_days : ℚ
  user_txn_count_24h : ℚ
  user_txn_count_7d : ℚ
  user_avg_amount_30d : ℚ
  user_txn_frequency : ℚ
  is_first_transaction : ℚ

/-- `extractUserFeatures` (the only sub-extractor that touches the state,
through the account-age cache). -/
def extractUserFeatures (env : Env) (s : MLState) (txn : Transaction) :
    UserFeatures × MLState :=
  let userId := userIdOf txn
  let history := getUserHistory s userId
  let ageState := calculateUserAge env s userId
  let userAgedays := ageState.1
  let txnCount24h := countRecentTransactions env history 24
  let txnCount7d := countRecentTransactions env history (24 * 7)
  let avgAmount30d := calculateAverageAmount env history 30
  let txnFrequency : ℚ := (txnCount7d : ℚ) / 7
  ({ user_age_days := userAgedays / 365
     user_txn_count_24h := min ((txnCount24h : ℚ) / 10) 1
     user_txn_count_7d := min ((txnCount7d : ℚ) / 50) 1
     user_avg_amount_30d := avgAmount30d / 1000
     user_txn_frequency := min (txnFrequency / 5) 1
     is_first_transaction := if history.length = 0 then 1 else 0 }, ageState.2)

/-- Result of `extractVelocityFeatures`. -/
structure VelocityFeatures where
  amount_ratio_vs_avg : ℚ
  time_since_last_txn_minutes : ℚ

/-- `extractVelocityFeatures`: the empty-history branch returns the raw
sentinel pair `(1.0, 9999)`; otherwise the capped normalized ratio and
minutes-since-last values. -/
def extractVelocityFeatures (env : Env) (history : List Transaction)
    (txn : Transaction) : VelocityFeatures :=
  match history.getLast? with
  | none =>
      { amount_ratio_vs_avg := 1
        time_since_last_txn_minutes := 9999 }
  | some lastTransaction =>
      let avgAmount := calculateAverageAmount env history 30
      let amountRatio := if avgAmount > 0 then txn.amount / avgAmount else 1
      let timeDiff : ℚ := (txn.timestamp : ℚ) - (lastTransaction.timestamp : ℚ)
      let minutesSinceLast := timeDiff / (1000 * 60)
      { amount_ratio_vs_avg := min (amountRatio / 5) 1
        time_since_last_txn_minutes := min (minutesSinceLast / 1440) 1 }

/-- Result of `extractDeviceFeatures`. -/
structure DeviceFeatures where
  device_age_days : ℚ
  ip_country_match : ℚ
  billing_shipping_match : ℚ

/-- `extractDeviceFeatures`: the three simulated `Math.random()` draws come
from the environment. -/
def extractDeviceFeatures (env : Env) : DeviceFeatures :=
  let deviceAge := env.device.deviceRand * 365
  { device_age_days := deviceAge / 365
    ip_country_match := if env.device.ipRand > 1/10 then 1 else 0
    billing_shipping_match := if env.device.shipRand > 1/20 then 1 else 0 }

/-- `getMerchantFraudRate`: static table with default `0.08`. -/
def getMerchantFraudRate (merchant : String) : ℚ :=
  if merchant = "Amazon" then 2/100
  else if merchant = "Steam" then 5/100
  else if merchant = "Nike" then 3/100
  else if merchant = "Apple" then 1/100
  else if merchant = "Spotify" then 2/100
  else if merchant = "Unknown Merchant" then 15/100
  else 8/100

/-- `getMerchantAvgAmount`: static table with default `100`. -/
def getMerchantAvgAmount (merchant : String) : ℚ :=
  if merchant = "Amazon" then 150
  else if merchant = "Steam" then 60
  else if merchant = "Nike" then 200
  else if merchant = "Apple" then 500
  else if merchant = "Spotify" then 10
  else if merchant = "Unknown Merchant" then 100
  else 100

/-- Result of `extractMerchantFeatures`. -/
structure MerchantFeatures where
  merchant_fraud_rate_30d : ℚ
  merchant_avg_amount : ℚ

/-- `extractMerchantFeatures`. -/
def extractMerchantFeatures (txn : Transaction) : MerchantFeatures :=
  { merchant_fraud_rate_30d := getMerchantFraudRate txn.merchantName
    merchant_avg_amount := getMerchantAvgAmount txn.merchantName / 1000 }

/-- Result of `extractPaymentMethodFeatures`. -/
structure PaymentFeatures where
  payment_method_risk_score : ℚ
  is_crypto : ℚ

/-- `extractPaymentMethodFeatures`: per-method base risk table, default `0.5`. -/
def extractPaymentMethodFeatures (txn : Transaction) : PaymentFeatures :=
  let paymentMethod := txn.paymentMethod.toLower
  { payment_method_risk_score :=
      if paymentMethod = "crypto" then 6/10
      else if paymentMethod = "credit_card" then 3/10
      else if paymentMethod = "debit_card" then 25/100
      else if paymentMethod = "bank_transfer" then 2/10
      else 1/2
    is_crypto := if paymentMethod = "crypto" then 1 else 0 }

/-- `extractFeatures`: assemble the full feature vector in the object-spread
order of the source, threading the state through the user-feature step. -/
def extractFeatures (env : Env) (s : MLState) (txn : Transaction) :
    FeatureVector × MLState :=
  let basic := extractBasicFeatures env txn
  let userState := extractUserFeatures env s txn
  let user := userState.1
  let s1 := userState.2
  let velocity := extractVelocityFeatures env (getUserHistory s1 (userIdOf txn)) txn
  let device := extractDeviceFeatures env
  let merchant := extractMerchantFeatures txn
  let payment := extractPaymentMethodFeatures txn
  ({ amount := basic.amount
     amount_log := basic.amount_log
     hour_of_day := basic.hour_of_day
     day_of_week := basic.day_of_week
     is_weekend := basic.is_weekend
     user_age_days := user.user_age_days
     user_txn_count_24h := user.user_txn_count_24h
     user_txn_count_7d := user.user_txn_count_7d
     user_avg_amount_30d := user.user_avg_amount_30d
     user_txn_frequency := user.user_txn_frequency
     amount_ratio_vs_avg := velocity.amount_ratio_vs_avg
     time_since_last_txn_minutes := velocity.time_since_last_txn_minutes
     device_age_days := device.device_age_days
     ip_country_match := device.ip_country_match
     billing_shipping_match := device.billing_shipping_match
     merchant_fraud_rate_30d := merchant.merchant_fraud_rate_30d
     merchant_avg_amount := merchant.merchant_avg_amount
     payment_method_risk_score := payment.payment_method_risk_score
     is_crypto := payment.is_crypto
     is_first_transaction := user.is_first_transaction }, s1)

/-- Body of `updateUserHistory` for one user's list: push, then drop the
oldest entry once the length exceeds 1000. -/
def updateUserHistoryFor (history : List Transaction) (txn : Transaction) :
    List Transaction :=
  let h := history ++ [txn]
  if h.length > 1000 then h.tail else h

/-- `updateUserHistory`: append the transaction to its customer's history in
the module state, bounding the list at 1000 entries. -/
def updateUserHistory (s : MLState) (txn : Transaction) : MLState :=
  let userId := userIdOf txn
  { s with userTransactionHistory := fun u =>
      if u = userId then updateUserHistoryFor (s.userTransactionHistory userId) txn
      else s.userTransactionHistory u }

/-- `getFeatureImportance`: the fixed global importance table, in object-key
insertion order. -/
def getFeatureImportance : List (String × ℚ) :=
  [("amount_ratio_vs_avg", 15/100),
   ("user_txn_count_24h", 12/100),
   ("merchant_fraud_rate_30d", 11/100),
   ("amount_log", 1/10),
   ("time_since_last_txn_minutes", 9/100),
   ("user_age_days", 8/100),
   ("payment_method_risk_score", 8/100),
   ("is_crypto", 7/100),
   ("device_age_days", 6/100),
   ("ip_country_match", 5/100),
   ("billing_shipping_match", 4/100),
   ("is_first_transaction", 3/100),
   ("hour_of_day", 2/100)]

end FeatureEngineer

/-- Decision-tree node of `fraudDetectionModel.ts` (leaf carries the
prediction value; inner node splits a named feature at a threshold). -/
inductive TreeNode where
  | leaf (prediction : ℚ)
  | node (featureName : String) (threshold : ℚ) (leftChild rightChild : TreeNode)
deriving DecidableEq, Repr

namespace FraudDetectionModel

/-- The default `TrainingConfig` constants used by the `"v1"` model:
`numTrees = 100`, `learningRate = 0.1`, `falseDeclineWeight = 0.3`. -/
def numTrees : ℕ := 100

/-- Default learning rate `0.1`. -/
def learningRate : ℚ := 1/10

/-- Default `falseDeclineWeight` `0.3`. -/
def falseDeclineWeight : ℚ := 3/10

/-- Dynamic feature lookup `(features as any)[name]`: `none` models the JS
`undefined` of an unknown key. -/
def getFeatureValue? (features : FeatureVector) (name : String) : Option ℚ :=
  if name = "amount" then some features.amount
  else if name = "amount_log" then some features.amount_log
  else if name = "hour_of_day" then some features.hour_of_day
  else if name = "day_of_week" then some features.day_of_week
  else if name = "is_weekend" then some features.is_weekend
  else if name = "user_age_days" then some features.user_age_days
  else if name = "user_txn_count_24h" then some features.user_txn_count_24h
  else if name = "user_txn_count_7d" then some features.user_txn_count_7d
  else if name = "user_avg_amount_30d" then some features.user_avg_amount_30d
  else if name = "user_txn_frequency" then some features.user_txn_frequency
  else if name = "amount_ratio_vs_avg" then some features.amount_ratio_vs_avg
  else if name = "time_since_last_txn_minutes" then some features.time_since_last_txn_minutes
  else if name = "device_age_days" then some features.device_age_days
  else if name = "ip_country_match" then some features.ip_country_match
  else if name = "billing_shipping_match" then some features.billing_shipping_match
  else if name = "merchant_fraud_rate_30d" then some features.merchant_fraud_rate_30d
  else if name = "merchant_avg_amount" then some features.merchant_avg_amount
  else if name = "payment_method_risk_score" then some features.payment_method_risk_score
  else if name = "is_crypto" then some features.is_crypto
  else if name = "is_first_transaction" then some features.is_first_transaction
  else none

/-- `createMockTree`: tree `i` roots at feature `i mod 13` of the importance
table, with the fixed three-level structure of the source. -/
def createMockTree (treeIndex : ℕ) : TreeNode :=
  let features := FeatureEngineer.getFeatureImportance.map Prod.fst
  let primaryFeature := features.getD (treeIndex % features.length) ""
  TreeNode.node primaryFeature (1/2)
    (TreeNode.node "amount_log" (3/10)
      (TreeNode.leaf (1/10))
      (TreeNode.leaf (3/10)))
    (TreeNode.node "user_txn_count_24h" (7/10)
      (TreeNode.leaf (1/2))
      (TreeNode.leaf (8/10)))

/-- The ensemble built by `initializeModel`: 100 mock trees. -/
def trees : List TreeNode :=
  (List.range numTrees).map createMockTree

/-- `predictSingleTree`: descend left when `featureValue < threshold`; a JS
`undefined` feature value makes the comparison false, so descend right. -/
def predictSingleTree (features : FeatureVector) : TreeNode → ℚ
  | TreeNode.leaf prediction => prediction
  | TreeNode.node featureName threshold leftChild rightChild =>
      match getFeatureValue? features featureName with
      | some v =>
          if v < threshold then predictSingleTree features leftChild
          else predictSingleTree features rightChild
      | none => predictSingleTree features rightChild

/-- `adjustFraudProbability`: the three rule-based multiplicative
adjustments, then the final clamp to [0,1]. -/
def adjustFraudProbability (baseProbability : ℚ) (features : FeatureVector) : ℚ :=
  let adjusted := baseProbability
  let adjusted :=
    if features.is_crypto = 1 ∧ features.amount_ratio_vs_avg > 8/10 then
      min (adjusted * (13/10)) 1
    else adjusted
  let adjusted :=
    if features.is_first_transaction = 1 ∧ features.amount_log > 7/10 then
      min (adjusted * (12/10)) 1
    else adjusted
  let adjusted :=
    if features.user_age_days > 1/2 ∧ features.user_txn_count_7d > 3/10 then
      adjusted * (8/10)
    else adjusted
  max 0 (min 1 adjusted)

/-- `predictFraudProbability`: learning-rate-weighted tree sum, sigmoid via
the environment's `Math.exp`, then the rule-based adjustments. -/
def predictFraudProbability (env : Env) (features : FeatureVector) : ℚ :=
  let sum := (trees.map (fun tree => learningRate * predictSingleTree features tree)).sum
  let probability := 1 / (1 + env.exp (-sum))
  adjustFraudProbability probability features

/-- `predictFalseDeclineRisk`: additive rule score capped at 1. -/
def predictFalseDeclineRisk (features : FeatureVector) (fraudProbability : ℚ) : ℚ :=
  let risk : ℚ := 0
  let risk := if features.user_age_days > 4/10 ∧ features.amount_log > 6/10 then risk + 3/10 else risk
  let risk :=
    if features.amount_ratio_vs_avg > 1/2 ∧ features.amount_ratio_vs_avg < 9/10 then
      risk + 2/10
    else risk
  let risk :=
    if features.ip_country_match = 1 ∧ features.billing_shipping_match = 1 then
      risk + 3/10
    else risk
  let risk := if features.user_txn_frequency > 4/10 then risk + 2/10 else risk
  let risk := if fraudProbability > 3/10 ∧ fraudProbability < 6/10 then risk + 3/10 else risk
  min risk 1

/-- `adjustScoreForFalseDecline`: `fraudProbability * (1 - weight * falseDeclineRisk)`
clamped to [0,1], with the default weight 0.3. -/
def adjustScoreForFalseDecline (fraudProbability falseDeclineRisk : ℚ) : ℚ :=
  let adjusted := fraudProbability * (1 - falseDeclineWeight * falseDeclineRisk)
  max 0 (min 1 adjusted)

/-- `makeDecision`: approve below 0.3, review below 0.6, decline otherwise. -/
def makeDecision (score : ℚ) : Decision :=
  if score < 3/10 then Decision.approve
  else if score < 6/10 then Decision.review
  else Decision.decline

/-- `calculateConfidence`: base 0.7 plus three conditional increments,
capped at 1. -/
def calculateConfidence (features : FeatureVector) (score : ℚ) : ℚ :=
  let confidence : ℚ := 7/10
  let confidence :=
    if features.user_age_days > 3/10 ∧ features.user_txn_count_7d > 2/10 then
      confidence + 15/100
    else confidence
  let confidence := if score < 2/10 ∨ score > 7/10 then confidence + 1/10 else confidence
  let confidence :=
    if features.ip_country_match = 1 ∧ features.billing_shipping_match = 1 then
      confidence + 5/100
    else confidence
  min confidence 1

/-- `explainPrediction` of the model class is a stub returning empty lists
(the real explanation is attached later by the service). -/
def explainPrediction : RiskExplanation :=
  { topFeatures := []
    riskFactors := []
    protectiveFactors := []
    shapValues := [] }

/-- `predict`: extract features, run the scoring chain and assemble the
`ModelPrediction` record; the state may change through the account-age cache
of the extraction step. -/
def predict (env : Env) (s : MLState) (txn : Transaction) :
    ModelPrediction × MLState :=
  let fs := FeatureEngineer.extractFeatures env s txn
  let features := fs.1
  let fraudProbability := predictFraudProbability env features
  let falseDeclineRisk := predictFalseDeclineRisk features fraudProbability
  let adjustedScore := adjustScoreForFalseDecline fraudProbability falseDeclineRisk
  let decision := makeDecision adjustedScore
  let confidence := calculateConfidence features adjustedScore
  ({ transactionId := txn.id
     riskScore := round (adjustedScore * 100)
     fraudProbability := fraudProbability
     falseDeclineRisk := falseDeclineRisk
     adjustedScore := adjustedScore
     decision := decision
     confidence := confidence
     features := features
     explanation := explainPrediction
     timestamp := env.now }, fs.2)

end FraudDetectionModel

namespace SHAPExplainer

/-- The fixed baseline risk constant (15%). -/
def baseValue : ℚ := 15/100

/-- The per-feature "normal value" table of `calculateDeviation`; features
absent from the table default to 0.5. -/
def normalValueFor (featureName : String) : ℚ :=
  if featureName = "amount_log" then 4/10
  else if featureName = "user_age_days" then 3/10
  else if featureName = "user_txn_count_24h" then 1/10
  else if featureName = "user_txn_count_7d" then 2/10
  else if featureName = "amount_ratio_vs_avg" then 1/2
  else if featureName = "time_since_last_txn_minutes" then 3/10
  else if featureName = "merchant_fraud_rate_30d" then 3/100
  else if featureName = "payment_method_risk_score" then 3/10
  else if featureName = "device_age_days" then 4/10
  else if featureName = "ip_country_match" then 1
  else if featureName = "billing_shipping_match" then 1
  else 1/2

/-- `calculateDeviation`: `value - normalValue`. -/
def calculateDeviation (featureName : String) (value : ℚ) : ℚ :=
  value - normalValueFor featureName

/-- Importance of a feature in the SHAP computation, defaulting to 0.01. -/
def importanceOf (featureName : String) : ℚ :=
  match FeatureEngineer.getFeatureImportance.lookup featureName with
  | some w => w
  | none => 1/100

/-- `Object.entries(features)`: the feature vector as an association list in
object-key insertion order (the spread order of `extractFeatures`). -/
def featureEntries (f : FeatureVector) : List (String × ℚ) :=
  [("amount", f.amount),
   ("amount_log", f.amount_log),
   ("hour_of_day", f.hour_of_day),
   ("day_of_week", f.day_of_week),
   ("is_weekend", f.is_weekend),
   ("user_age_days", f.user_age_days),
   ("user_txn_count_24h", f.user_txn_count_24h),
   ("user_txn_count_7d", f.user_txn_count_7d),
   ("user_avg_amount_30d", f.user_avg_amount_30d),
   ("user_txn_frequency", f.user_txn_frequency),
   ("is_first_transaction", f.is_first_transaction),
   ("amount_ratio_vs_avg", f.amount_ratio_vs_avg),
   ("time_since_last_txn_minutes", f.time_since_last_txn_minutes),
   ("device_age_days", f.device_age_days),
   ("ip_country_match", f.ip_country_match),
   ("billing_shipping_match", f.billing_shipping_match),
   ("merchant_fraud_rate_30d", f.merchant_fraud_rate_30d),
   ("merchant_avg_amount", f.merchant_avg_amount),
   ("payment_method_risk_score", f.payment_method_risk_score),
   ("is_crypto", f.is_crypto)]

/-- `calculateSHAPValues`: per feature,
`importance * deviation * (prediction - baseValue)`. -/
def calculateSHAPValues (features : FeatureVector) (prediction : ℚ) :
    List (String × ℚ) :=
  (featureEntries features).map
    (fun nv => (nv.1, importanceOf nv.1 * calculateDeviation nv.1 nv.2 * (prediction - baseValue)))

/-- `getTopFeatures`: wrap each SHAP value as a `FeatureContribution`, sort
descending by absolute contribution (JS stable sort with comparator
`b.importance - a.importance`) and keep the first `topN`. -/
def getTopFeatures (shapValues : List (String × ℚ)) (topN : ℕ) :
    List FeatureContribution :=
  let contributions := shapValues.map
    (fun fv => FeatureContribution.mk fv.1 fv.2 fv.2
      (if fv.2 > 0 then Impact.increase else Impact.decrease) (abs fv.2))
  (contributions.mergeSort (fun a b => decide (b.importance ≤ a.importance))).take topN

/-- `getFeatureExplanation`: the static wording table; `none` models the JS
`null` for features without an entry.  The interpolated number of the
`amount_log` risk wording (`Math.exp(value * 10).toFixed(0)` in the source)
is produced through the environment's `exp` and `toFixed`. -/
def getFeatureExplanation (env : Env) (featureName : String)
    (features : FeatureVector) (isRisk : Bool) : Option String :=
  let featureValue := (FraudDetectionModel.getFeatureValue? features featureName).getD 0
  if featureName = "amount_log" then
    some (if isRisk then
            "High transaction amount ($" ++ env.toFixed 0 (env.exp (featureValue * 10)) ++ ")"
          else "Normal transaction amount for user")
  else if featureName = "amount_ratio_vs_avg" then
    some (if isRisk then "Transaction amount significantly above user average"
          else "Transaction amount consistent with history")
  else if featureName = "user_age_days" then
    some (if isRisk then "New user account (higher risk)"
          else "Established user account (lower risk)")
  else if featureName = "user_txn_count_24h" then
    some (if isRisk then "Multiple transactions in short time (velocity)"
          else "Normal transaction frequency")
  else if featureName = "user_txn_count_7d" then
    some (if isRisk then "High transaction volume this week"
          else "Low transaction volume (controlled spending)")
  else if featureName = "time_since_last_txn_minutes" then
    some (if isRisk then "Very quick successive transactions"
          else "Reasonable time between transactions")
  else if featureName = "merchant_fraud_rate_30d" then
    some (if isRisk then "Merchant with elevated fraud rate"
          else "Trusted merchant with low fraud rate")
  else if featureName = "payment_method_risk_score" then
    some (if isRisk then "High-risk payment method selected"
          else "Low-risk payment method")
  else if featureName = "is_crypto" then
    some (if isRisk then "Cryptocurrency payment (irreversible)"
          else "Traditional reversible payment method")
  else if featureName = "device_age_days" then
    some (if isRisk then "New or unrecognized device"
          else "Known and trusted device")
  else if featureName = "ip_country_match" then
    some (if isRisk then "IP location mismatch with billing country"
          else "IP location matches billing address")
  else if featureName = "billing_shipping_match" then
    some (if isRisk then "Billing and shipping addresses do not match"
          else "Billing and shipping addresses match")
  else if featureName = "is_first_transaction" then
    some (if isRisk then "First transaction for this user"
          else "Returning customer with history")
  else if featureName = "hour_of_day" then
    some (if isRisk then "Transaction at unusual hour (late night)"
          else "Transaction during normal business hours")
  else if featureName = "is_weekend" then
    some (if isRisk then "Weekend transaction pattern"
          else "Weekday transaction (normal pattern)")
  else none

/-- `extractRiskFactors`: wording of the top features with increasing
impact; features with no table entry are silently omitted. -/
def extractRiskFactors (env : Env) (topFeatures : List FeatureContribution)
    (features : FeatureVector) : List String :=
  topFeatures.filterMap
    (fun feature =>
      if feature.impact = Impact.increase then
        getFeatureExplanation env feature.feature features true
      else none)

/-- `extractProtectiveFactors`: wording of the top features with decreasing
impact. -/
def extractProtectiveFactors (env : Env) (topFeatures : List FeatureContribution)
    (features : FeatureVector) : List String :=
  topFeatures.filterMap
    (fun feature =>
      if feature.impact = Impact.decrease then
        getFeatureExplanation env feature.feature features false
      else none)

/-- `explain`: full risk explanation (SHAP values, top 5 features, the two
human-readable factor lists). -/
def explain (env : Env) (features : FeatureVector) (fraudProbability : ℚ) :
    RiskExplanation :=
  let shapValues := calculateSHAPValues features fraudProbability
  let topFeatures := getTopFeatures shapValues 5
  let riskFactors := extractRiskFactors env topFeatures features
  let protectiveFactors := extractProtectiveFactors env topFeatures features
  { topFeatures := topFeatures
    riskFactors := riskFactors
    protectiveFactors := protectiveFactors
    shapValues := shapValues }

end SHAPExplainer


namespace FalseDeclineOptimizer

/-- The `merchantRiskTolerance` of the global optimizer instance (0.5). -/
def merchantRiskTolerance : ℚ := 1/2

/-- The fixed chargeback cost (25), unchanged by the constructor config. -/
def chargebackCost : ℚ := 25

/-- `calculateExpectedValue`:
`(1 - fraudProbability) * amount - fraudProbability * (amount + chargebackCost)`. -/
def calculateExpectedValue (amount fraudProbability : ℚ) : ℚ :=
  let legitimateProbability := 1 - fraudProbability
  let revenueIfLegit := legitimateProbability * amount
  let lossIfFraud := fraudProbability * (amount + chargebackCost)
  revenueIfLegit - lossIfFraud

/-- `makeOptimizedDecision`, mirroring the early-return control flow of the
source: inside the decline block the review condition is tested first and
returns immediately, so it wins when both decline overrides fire. -/
def makeOptimizedDecision (originalDecision : Decision)
    (falseDeclineRisk fraudProbability expectedValue confidence : ℚ) : Decision :=
  if originalDecision = Decision.approve then Decision.approve
  else if originalDecision = Decision.decline then
    if falseDeclineRisk > 6/10 ∧ expectedValue > 0 then Decision.review
    else if falseDeclineRisk > 8/10 ∧ fraudProbability < 4/10 then Decision.approve
    else originalDecision
  else if originalDecision = Decision.review then
    if fraudProbability < 35/100 ∧ confidence > 8/10 then Decision.approve
    else if fraudProbability > 7/10 then Decision.decline
    else originalDecision
  else originalDecision

/-- The decision's display string used by `generateReasoning`. -/
def decisionString : Decision → String
  | Decision.approve => "approve"
  | Decision.review => "review"
  | Decision.decline => "decline"

/-- `generateReasoning`: the deterministic textual trace; percent and dollar
formatting go through the environment's `toFixed`. -/
def generateReasoning (env : Env) (prediction : ModelPrediction)
    (expectedValue : ℚ) (originalDecision optimizedDecision : Decision) :
    List String :=
  let base :=
    ["Original model decision: " ++ (decisionString originalDecision).toUpper,
     "Fraud probability: " ++ env.toFixed 1 (prediction.fraudProbability * 100) ++ "%",
     "False decline risk: " ++ env.toFixed 1 (prediction.falseDeclineRisk * 100) ++ "%"]
  let base := base ++
    [if expectedValue > 0 then
       "✅ Positive expected value: $" ++ env.toFixed 2 expectedValue
     else "⚠️ Negative expected value: $" ++ env.toFixed 2 expectedValue]
  let base := base ++
    (if originalDecision ≠ optimizedDecision then
       if optimizedDecision = Decision.approve ∧ originalDecision = Decision.decline then
         ["🔄 Changed to APPROVE: High false decline risk detected, likely legitimate transaction"]
       else if optimizedDecision = Decision.review ∧ originalDecision = Decision.decline then
         ["🔄 Changed to REVIEW: Uncertain, recommend manual verification to avoid false decline"]
       else if optimizedDecision = Decision.approve ∧ originalDecision = Decision.review then
         ["🔄 Changed to APPROVE: Low fraud risk with high confidence"]
       else []
     else ["✓ Decision confirmed: " ++ (decisionString optimizedDecision).toUpper])
  let base := base ++
    (if prediction.features.user_age_days > 4/10 then
       ["• Established user account (trust signal)"]
     else [])
  let base := base ++
    (if prediction.features.user_txn_count_7d > 3/10 then
       ["• Active user with transaction history"]
     else [])
  base ++
    (if prediction.features.ip_country_match = 1 ∧
        prediction.features.billing_shipping_match = 1 then
       ["• Location and address verification passed"]
     else [])

/-- `OptimizationResult` of `falseDeclineOptimizer.ts`. -/
structure OptimizationResult where
  originalDecision : Decision
  optimizedDecision : Decision
  confidence : ℚ
  reasoning : List String
  potentialRevenue : ℚ
  riskTolerance : ℚ
deriving DecidableEq, Repr

/-- `optimize`: expected-value computation, the decision override and the
assembled result (`potentialRevenue` is the amount when the expected value is
positive, otherwise 0). -/
def optimize (env : Env) (transaction : Transaction)
    (prediction : ModelPrediction) : OptimizationResult :=
  let originalDecision := prediction.decision
  let falseDeclineRisk := prediction.falseDeclineRisk
  let fraudProbability := prediction.fraudProbability
  let expectedValue := calculateExpectedValue transaction.amount fraudProbability
  let optimizedDecision := makeOptimizedDecision originalDecision falseDeclineRisk
    fraudProbability expectedValue prediction.confidence
  let reasoning := generateReasoning env prediction expectedValue
    originalDecision optimizedDecision
  { originalDecision := originalDecision
    optimizedDecision := optimizedDecision
    confidence := prediction.confidence
    reasoning := reasoning
    potentialRevenue := if expectedValue > 0 then transaction.amount else 0
    riskTolerance := merchantRiskTolerance }

end FalseDeclineOptimizer

namespace MLService

/-- `logPrediction`: append to the rolling prediction log, bounded at 1000. -/
def logPrediction (s : MLState) (prediction : ModelPrediction) : MLState :=
  let h := s.predictionHistory ++ [prediction]
  { s with predictionHistory := if h.length > 1000 then h.tail else h }

/-- The pair returned by `assessRisk`. -/
structure AssessResult where
  prediction : ModelPrediction
  optimization : FalseDeclineOptimizer.OptimizationResult
deriving DecidableEq, Repr

/-- `assessRisk`: the source extracts features once for the explanation and a
second time inside `model.predict`; the two calls draw fresh device
randomness, so the second extraction runs under `dev2`.  No validation of
the transaction happens anywhere: every transaction flows through the full
pipeline, is logged, and is appended to its customer's history. -/
def assessRisk (env : Env) (dev2 : DeviceEnv) (s : MLState)
    (transaction : Transaction) : AssessResult × MLState :=
  let fs := FeatureEngineer.extractFeatures env s transaction
  let features := fs.1
  let ps := FraudDetectionModel.predict { env with device := dev2 } fs.2 transaction
  let prediction := ps.1
  let explanation := SHAPExplainer.explain env features prediction.fraudProbability
  let prediction := { prediction with explanation := explanation }
  let optimization := FalseDeclineOptimizer.optimize env transaction prediction
  let s2 := logPrediction ps.2 prediction
  let s3 := FeatureEngineer.updateUserHistory s2 transaction
  ({ prediction := prediction, optimization := optimization }, s3)

end MLService

/-! ### Concrete fixtures for witnesses and counterexamples -/

/-- A fixed, fully deterministic environment used for concrete evaluations. -/
def testEnv : Env :=
  { now := 0
    getHours := fun _ => 0
    getDay := fun _ => 1
    log1p := fun _ => 0
    exp := fun _ => 1
    toFixed := fun _ _ => ""
    userAgeRand := fun _ => 0
    device := { deviceRand := 0, ipRand := 0, shipRand := 0 } }

/-- An all-zero feature vector, used to populate synthetic predictions. -/
def zeroFeatures : FeatureVector :=
  { amount := 0, amount_log := 0, hour_of_day := 0, day_of_week := 0,
    is_weekend := 0, user_age_days := 0, user_txn_count_24h := 0,
    user_txn_count_7d := 0, user_avg_amount_30d := 0, user_txn_frequency := 0,
    amount_ratio_vs_avg := 0, time_since_last_txn_minutes := 0,
    device_age_days := 0, ip_country_match := 0, billing_shipping_match := 0,
    merchant_fraud_rate_30d := 0, merchant_avg_amount := 0,
    payment_method_risk_score := 0, is_crypto := 0, is_first_transaction := 0 }

/-- A concrete transaction of amount 100 for customer `"c"`. -/
def txn100 : Transaction :=
  { id := "t1", timestamp := 0, amount := 100, currency := "USD",
    paymentMethod := "credit_card", merchantId := "m1",
    merchantName := "Amazon", customerId := "c" }

/-- A malformed transaction: negative amount. -/
def txnBad : Transaction :=
  { id := "tbad", timestamp := 0, amount := -5, currency := "USD",
    paymentMethod := "credit_card", merchantId := "m1",
    merchantName := "Amazon", customerId := "c" }

/-- Synthetic prediction with `decision = decline`, `falseDeclineRisk = 0.9`,
`fraudProbability = 0.2` (the instance named by the spec's optimizer test). -/
def predDecline : ModelPrediction :=
  { transactionId := "t1", riskScore := 70, fraudProbability := 2/10,
    falseDeclineRisk := 9/10, adjustedScore := 7/10,
    decision := Decision.decline, confidence := 1/2, features := zeroFeatures,
    explanation := FraudDetectionModel.explainPrediction, timestamp := 0 }

/-- Synthetic prediction with `fraudProbability = 0.05` for the
expected-value example. -/
def pred005 : ModelPrediction :=
  { transactionId := "t1", riskScore := 5, fraudProbability := 5/100,
    falseDeclineRisk := 0, adjustedScore := 5/100,
    decision := Decision.approve, confidence := 1/2, features := zeroFeatures,
    explanation := FraudDetectionModel.explainPrediction, timestamp := 0 }

/-- Transaction number `i` of the concrete FIFO run. -/
def mkTxn (i : ℕ) : Transaction :=
  { id := toString i, timestamp := (i : ℤ), amount := (i : ℚ), currency := "USD",
    paymentMethod := "credit_card", merchantId := "m1",
    merchantName := "Amazon", customerId := "c" }

/-! ### Helper lemmas -/

/-- `calculateUserAge` only writes the feature cache: the history map and the
prediction log of the resulting state are untouched. -/
theorem calculateUserAge_frame (env : Env) (s : MLState) (u : String) :
    ((FeatureEngineer.calculateUserAge env s u).2).userTransactionHistory =
        s.userTransactionHistory ∧
    ((FeatureEngineer.calculateUserAge env s u).2).predictionHistory =
        s.predictionHistory := by
  unfold FeatureEngineer.calculateUserAge
  cases s.featureCache u with
  | none => exact ⟨rfl, rfl⟩
  | some v =>
      by_cases hv : v = 0 <;> simp [hv]

/-- `extractFeatures` only writes the feature cache: the history map and the
prediction log of the resulting state are untouched. -/
theorem extractFeatures_frame (env : Env) (s : MLState) (txn : Transaction) :
    ((FeatureEngineer.extractFeatures env s txn).2).userTransactionHistory =
        s.userTransactionHistory ∧
    ((FeatureEngineer.extractFeatures env s txn).2).predictionHistory =
        s.predictionHistory :=
  calculateUserAge_frame env s (FeatureEngineer.userIdOf txn)

/-- `predict` only writes the feature cache (through its feature
extraction). -/
theorem predict_frame (env : Env) (s : MLState) (txn : Transaction) :
    ((FraudDetectionModel.predict env s txn).2).userTransactionHistory =
        s.userTransactionHistory ∧
    ((FraudDetectionModel.predict env s txn).2).predictionHistory =
        s.predictionHistory :=
  extractFeatures_frame env s txn

/-- The final state of `assessRisk`, pointwise on the history map: the
transaction is appended (with the 1000 bound) to its customer's history and
no other history changes. -/
theorem assessRisk_userHistory (env : Env) (dev2 : DeviceEnv) (s : MLState)
    (txn : Transaction) (u : String) :
    ((MLService.assessRisk env dev2 s txn).2).userTransactionHistory u =
      (if u = FeatureEngineer.userIdOf txn then
        FeatureEngineer.updateUserHistoryFor
          (s.userTransactionHistory (FeatureEngineer.userIdOf txn)) txn
      else s.userTransactionHistory u) := by
  have h1 := (extractFeatures_frame env s txn).1
  have h2 := (predict_frame { env with device := dev2 }
    (FeatureEngineer.extractFeatures env s txn).2 txn).1
  unfold MLService.assessRisk FeatureEngineer.updateUserHistory
    MLService.logPrediction
  simp only []
  rw [h2, h1]

/-- `calculateConfidence` lies in `[0.7, 1]` for every input. -/
theorem calculateConfidence_bounds (features : FeatureVector) (score : ℚ) :
    7/10 ≤ FraudDetectionModel.calculateConfidence features score ∧
    FraudDetectionModel.calculateConfidence features score ≤ 1 := by
  unfold FraudDetectionModel.calculateConfidence
  split_ifs <;> constructor <;> norm_num

/-! ### Claim theorems -/

/-- C4: `makeDecision` returns approve exactly when the score is below 0.3,
review exactly when it is in [0.3, 0.6), decline exactly when it is at least
0.6; in particular review at exactly 0.3 and decline at exactly 0.6. -/
theorem C4_decision_thresholds (score : ℚ) :
    (FraudDetectionModel.makeDecision score = Decision.approve ↔ score < 3/10) ∧
    (FraudDetectionModel.makeDecision score = Decision.review ↔
      3/10 ≤ score ∧ score < 6/10) ∧
    (FraudDetectionModel.makeDecision score = Decision.decline ↔ 6/10 ≤ score) ∧
    FraudDetectionModel.makeDecision (3/10) = Decision.review ∧
    FraudDetectionModel.makeDecision (6/10) = Decision.decline := by
  unfold FraudDetectionModel.makeDecision
  refine ⟨?_, ?_, ?_, by norm_num, by norm_num⟩
  all_goals split_ifs with h1 h2 <;> simp_all <;> linarith

/-- C10: for every feature vector and score the computed confidence lies in
`[0.7, 1]` — it never drops below the base value 0.7. -/
theorem C10_confidence_range (features : FeatureVector) (score : ℚ) :
    7/10 ≤ FraudDetectionModel.calculateConfidence features score ∧
    FraudDetectionModel.calculateConfidence features score ≤ 1 :=
  calculateConfidence_bounds features score

/-- C9: feature extraction never mutates any customer's transaction history:
the history map of the state after `extractFeatures` is the one before. -/
theorem C9_extract_readonly (env : Env) (s : MLState) (txn : Transaction) :
    ((FeatureEngineer.extractFeatures env s txn).2).userTransactionHistory =
      s.userTransactionHistory :=
  (extractFeatures_frame env s txn).1

/-- C7: the expected value is
`(1 - fraudProbability) * amount - fraudProbability * (amount + 25)` and the
optimizer's `potentialRevenue` is the amount exactly when this is positive,
0 otherwise; for amount 100 and fraud probability 0.05 the expected value is
88.75 (= 355/4) and the potential revenue is 100. -/
theorem C7_expected_value :
    (∀ amount fraudProbability : ℚ,
      FalseDeclineOptimizer.calculateExpectedValue amount fraudProbability =
        (1 - fraudProbability) * amount -
          fraudProbability * (amount + FalseDeclineOptimizer.chargebackCost)) ∧
    (∀ (env : Env) (txn : Transaction) (pred : ModelPrediction),
      (FalseDeclineOptimizer.optimize env txn pred).potentialRevenue =
        (if FalseDeclineOptimizer.calculateExpectedValue txn.amount
              pred.fraudProbability > 0
         then txn.amount else 0)) ∧
    FalseDeclineOptimizer.calculateExpectedValue 100 (5/100) = 355/4 ∧
    (FalseDeclineOptimizer.optimize testEnv txn100 pred005).potentialRevenue = 100 := by
  refine ⟨fun amount fraudProbability => rfl, fun env txn pred => rfl, ?_, ?_⟩
  · norm_num [FalseDeclineOptimizer.calculateExpectedValue,
      FalseDeclineOptimizer.chargebackCost]
  · have hproj : (FalseDeclineOptimizer.optimize testEnv txn100 pred005).potentialRevenue =
        (if FalseDeclineOptimizer.calculateExpectedValue txn100.amount
              pred005.fraudProbability > 0
         then txn100.amount else 0) := rfl
    rw [hproj]
    norm_num [FalseDeclineOptimizer.calculateExpectedValue,
      FalseDeclineOptimizer.chargebackCost, txn100, pred005]

/-- C1 counterexample: with `decision = decline`, `falseDeclineRisk = 0.9`,
`fraudProbability = 0.2` and amount 100 the optimizer returns review, not
approve — refuting the claim that approve results for any amount and that
the approve override takes precedence. -/
theorem C1_counterexample :
    predDecline.decision = Decision.decline ∧
    predDecline.falseDeclineRisk = 9/10 ∧
    predDecline.fraudProbability = 2/10 ∧
    (FalseDeclineOptimizer.optimize testEnv txn100 predDecline).optimizedDecision =
      Decision.review ∧
    Decision.review ≠ Decision.approve := by
  refine ⟨rfl, rfl, rfl, ?_, by decide⟩
  have hproj : (FalseDeclineOptimizer.optimize testEnv txn100 predDecline).optimizedDecision =
      FalseDeclineOptimizer.makeOptimizedDecision predDecline.decision
        predDecline.falseDeclineRisk predDecline.fraudProbability
        (FalseDeclineOptimizer.calculateExpectedValue txn100.amount
          predDecline.fraudProbability) predDecline.confidence := rfl
  rw [hproj]
  show FalseDeclineOptimizer.makeOptimizedDecision Decision.decline (9/10) (2/10)
      (FalseDeclineOptimizer.calculateExpectedValue 100 (2/10)) (1/2) =
    Decision.review
  have hev : FalseDeclineOptimizer.calculateExpectedValue 100 (2/10) > 0 := by
    norm_num [FalseDeclineOptimizer.calculateExpectedValue,
      FalseDeclineOptimizer.chargebackCost]
  unfold FalseDeclineOptimizer.makeOptimizedDecision
  rw [if_neg (by decide), if_pos rfl, if_pos ⟨by norm_num, hev⟩]

/-- C1 (amended): for a prediction with original decision decline, the
review override (`falseDeclineRisk > 0.6` and positive expected value) is
evaluated first and returns immediately, so it takes precedence; the approve
override (`falseDeclineRisk > 0.8` and `fraudProbability < 0.4`) applies
only when the review condition fails. -/
theorem C1_decline_overrides (env : Env) (txn : Transaction)
    (pred : ModelPrediction) (h : pred.decision = Decision.decline) :
    (FalseDeclineOptimizer.optimize env txn pred).optimizedDecision =
      (if pred.falseDeclineRisk > 6/10 ∧
          FalseDeclineOptimizer.calculateExpectedValue txn.amount
            pred.fraudProbability > 0
       then Decision.review
       else if pred.falseDeclineRisk > 8/10 ∧ pred.fraudProbability < 4/10
       then Decision.approve
       else Decision.decline) := by
  have hproj : (FalseDeclineOptimizer.optimize env txn pred).optimizedDecision =
      FalseDeclineOptimizer.makeOptimizedDecision pred.decision
        pred.falseDeclineRisk pred.fraudProbability
        (FalseDeclineOptimizer.calculateExpectedValue txn.amount
          pred.fraudProbability) pred.confidence := rfl
  rw [hproj, h]
  unfold FalseDeclineOptimizer.makeOptimizedDecision
  rw [if_neg (by decide), if_pos rfl]

/-- C1 witness: the amended override characterization applied at the spec's
synthetic input (decline, falseDeclineRisk 0.9, fraudProbability 0.2, amount
100). -/
theorem C1_decline_overrides_witness :
    predDecline.decision = Decision.decline ∧
    (FalseDeclineOptimizer.optimize testEnv txn100 predDecline).optimizedDecision =
      (if predDecline.falseDeclineRisk > 6/10 ∧
          FalseDeclineOptimizer.calculateExpectedValue txn100.amount
            predDecline.fraudProbability > 0
       then Decision.review
       else if predDecline.falseDeclineRisk > 8/10 ∧
          predDecline.fraudProbability < 4/10
       then Decision.approve
       else Decision.decline) :=
  ⟨rfl, C1_decline_overrides testEnv txn100 predDecline rfl⟩

/-- C2 counterexample: for a transaction whose customer has empty history,
the extracted `time_since_last_txn_minutes` is the raw sentinel 9999, not
the claimed normalized cap 1.0. -/
theorem C2_counterexample :
    MLState.initial.userTransactionHistory (FeatureEngineer.userIdOf txn100) = [] ∧
    (FeatureEngineer.extractFeatures testEnv MLState.initial
        txn100).1.time_since_last_txn_minutes = 9999 ∧
    (9999 : ℚ) ≠ 1 := by
  refine ⟨rfl, rfl, by norm_num⟩

/-- C2 (amended): for every transaction whose customer has an empty history,
the extracted feature vector has `amount_ratio_vs_avg = 1.0` and
`time_since_last_txn_minutes = 9999`, the raw un-normalized sentinel of the
empty-history branch (all non-empty-history values of this feature are capped
at 1). -/
theorem C2_empty_history_sentinels (env : Env) (s : MLState) (txn : Transaction)
    (h : s.userTransactionHistory (FeatureEngineer.userIdOf txn) = []) :
    (FeatureEngineer.extractFeatures env s txn).1.amount_ratio_vs_avg = 1 ∧
    (FeatureEngineer.extractFeatures env s txn).1.time_since_last_txn_minutes =
      9999 := by
  have hs1 : ((FeatureEngineer.extractUserFeatures env s txn).2).userTransactionHistory =
      s.userTransactionHistory :=
    (calculateUserAge_frame env s (FeatureEngineer.userIdOf txn)).1
  have hist : FeatureEngineer.getUserHistory
      ((FeatureEngineer.extractUserFeatures env s txn).2)
      (FeatureEngineer.userIdOf txn) = [] := by
    unfold FeatureEngineer.getUserHistory
    rw [hs1, h]
  have hratio : (FeatureEngineer.extractFeatures env s txn).1.amount_ratio_vs_avg =
      (FeatureEngineer.extractVelocityFeatures env
        (FeatureEngineer.getUserHistory
          ((FeatureEngineer.extractUserFeatures env s txn).2)
          (FeatureEngineer.userIdOf txn)) txn).amount_ratio_vs_avg := rfl
  have htime : (FeatureEngineer.extractFeatures env s txn).1.time_since_last_txn_minutes =
      (FeatureEngineer.extractVelocityFeatures env
        (FeatureEngineer.getUserHistory
          ((FeatureEngineer.extractUserFeatures env s txn).2)
          (FeatureEngineer.userIdOf txn)) txn).time_since_last_txn_minutes := rfl
  rw [hratio, htime, hist]
  exact ⟨rfl, rfl⟩

/-- C2 witness: the amended sentinel statement applied to a concrete
transaction on the empty initial state. -/
theorem C2_empty_history_sentinels_witness :
    MLState.initial.userTransactionHistory (FeatureEngineer.userIdOf txn100) = [] ∧
    ((FeatureEngineer.extractFeatures testEnv MLState.initial
        txn100).1.amount_ratio_vs_avg = 1 ∧
     (FeatureEngineer.extractFeatures testEnv MLState.initial
        txn100).1.time_since_last_txn_minutes = 9999) :=
  ⟨rfl, C2_empty_history_sentinels testEnv MLState.initial txn100 rfl⟩

/-- C3 counterexample: a malformed transaction (negative amount) is not
rejected by `assessRisk` — it is processed and appended to its customer's
history, so the history does not stay unchanged as the claim requires. -/
theorem C3_counterexample :
    txnBad.amount = -5 ∧
    ((MLService.assessRisk testEnv testEnv.device MLState.initial
        txnBad).2).userTransactionHistory "c" = [txnBad] ∧
    [txnBad] ≠ ([] : List Transaction) := by
  refine ⟨rfl, ?_, by simp⟩
  rw [assessRisk_userHistory]
  have hid : FeatureEngineer.userIdOf txnBad = "c" := rfl
  rw [hid, if_pos rfl]
  rfl

/-- C3 (amended): `assessRisk` performs no validation whatsoever: every
transaction — malformed or not — flows through the full pipeline with no
error surfaced (the result type has no error case) and is unconditionally
appended to its customer's history. -/
theorem C3_no_validation (env : Env) (dev2 : DeviceEnv) (s : MLState)
    (txn : Transaction) :
    ((MLService.assessRisk env dev2 s txn).2).userTransactionHistory
        (FeatureEngineer.userIdOf txn) =
      FeatureEngineer.updateUserHistoryFor
        (s.userTransactionHistory (FeatureEngineer.userIdOf txn)) txn := by
  rw [assessRisk_userHistory, if_pos rfl]

/-- `adjustFraudProbability` is clamped to [0,1] whatever its input. -/
theorem adjustFraudProbability_bounds (baseProbability : ℚ) (f : FeatureVector) :
    0 ≤ FraudDetectionModel.adjustFraudProbability baseProbability f ∧
    FraudDetectionModel.adjustFraudProbability baseProbability f ≤ 1 := by
  unfold FraudDetectionModel.adjustFraudProbability
  exact ⟨le_max_left 0 _, max_le (by norm_num) (min_le_left 1 _)⟩

/-- `predictFraudProbability` lies in [0,1] (through the final clamp of the
rule adjustments). -/
theorem predictFraudProbability_bounds (env : Env) (f : FeatureVector) :
    0 ≤ FraudDetectionModel.predictFraudProbability env f ∧
    FraudDetectionModel.predictFraudProbability env f ≤ 1 :=
  adjustFraudProbability_bounds _ f

/-- `predictFalseDeclineRisk` lies in [0,1]: its increments are nonnegative
and the sum is capped at 1. -/
theorem predictFalseDeclineRisk_bounds (f : FeatureVector) (fraudProbability : ℚ) :
    0 ≤ FraudDetectionModel.predictFalseDeclineRisk f fraudProbability ∧
    FraudDetectionModel.predictFalseDeclineRisk f fraudProbability ≤ 1 := by
  unfold FraudDetectionModel.predictFalseDeclineRisk
  constructor
  · refine le_min ?_ (by norm_num)
    split_ifs <;> norm_num
  · exact min_le_right _ 1

/-- `adjustScoreForFalseDecline` is clamped to [0,1] whatever its inputs. -/
theorem adjustScoreForFalseDecline_bounds (fraudProbability falseDeclineRisk : ℚ) :
    0 ≤ FraudDetectionModel.adjustScoreForFalseDecline fraudProbability falseDeclineRisk ∧
    FraudDetectionModel.adjustScoreForFalseDecline fraudProbability falseDeclineRisk ≤ 1 := by
  unfold FraudDetectionModel.adjustScoreForFalseDecline
  exact ⟨le_max_left 0 _, max_le (by norm_num) (min_le_left 1 _)⟩

/-- Rounding `a * 100` for `a ∈ [0,1]` lands in `[0,100]`. -/
theorem round_hundred_bounds {a : ℚ} (h0 : 0 ≤ a) (h1 : a ≤ 1) :
    0 ≤ round (a * 100) ∧ round (a * 100) ≤ 100 := by
  rw [round_eq]
  constructor
  · exact Int.le_floor.mpr (by push_cast; linarith)
  · rw [Int.floor_le_iff]
    push_cast
    linarith

/-- C5: every prediction returned by `predict` has
`riskScore = round(adjustedScore * 100)` lying in [0,100] and
`fraudProbability`, `falseDeclineRisk`, `adjustedScore`, `confidence` all in
[0,1]. -/
theorem C5_prediction_ranges (env : Env) (s : MLState) (txn : Transaction) :
    (FraudDetectionModel.predict env s txn).1.riskScore =
      round ((FraudDetectionModel.predict env s txn).1.adjustedScore * 100) ∧
    0 ≤ (FraudDetectionModel.predict env s txn).1.riskScore ∧
    (FraudDetectionModel.predict env s txn).1.riskScore ≤ 100 ∧
    0 ≤ (FraudDetectionModel.predict env s txn).1.fraudProbability ∧
    (FraudDetectionModel.predict env s txn).1.fraudProbability ≤ 1 ∧
    0 ≤ (FraudDetectionModel.predict env s txn).1.falseDeclineRisk ∧
    (FraudDetectionModel.predict env s txn).1.falseDeclineRisk ≤ 1 ∧
    0 ≤ (FraudDetectionModel.predict env s txn).1.adjustedScore ∧
    (FraudDetectionModel.predict env s txn).1.adjustedScore ≤ 1 ∧
    0 ≤ (FraudDetectionModel.predict env s txn).1.confidence ∧
    (FraudDetectionModel.predict env s txn).1.confidence ≤ 1 := by
  have hfp := predictFraudProbability_bounds env
    (FeatureEngineer.extractFeatures env s txn).1
  have hfdr := predictFalseDeclineRisk_bounds
    (FeatureEngineer.extractFeatures env s txn).1
    (FraudDetectionModel.predictFraudProbability env
      (FeatureEngineer.extractFeatures env s txn).1)
  have hadj := adjustScoreForFalseDecline_bounds
    (FraudDetectionModel.predictFraudProbability env
      (FeatureEngineer.extractFeatures env s txn).1)
    (FraudDetectionModel.predictFalseDeclineRisk
      (FeatureEngineer.extractFeatures env s txn).1
      (FraudDetectionModel.predictFraudProbability env
        (FeatureEngineer.extractFeatures env s txn).1))
  have hconf := calculateConfidence_bounds
    (FeatureEngineer.extractFeatures env s txn).1
    (FraudDetectionModel.adjustScoreForFalseDecline
      (FraudDetectionModel.predictFraudProbability env
        (FeatureEngineer.extractFeatures env s txn).1)
      (FraudDetectionModel.predictFalseDeclineRisk
        (FeatureEngineer.extractFeatures env s txn).1
        (FraudDetectionModel.predictFraudProbability env
          (FeatureEngineer.extractFeatures env s txn).1)))
  have hrs := round_hundred_bounds hadj.1 hadj.2
  exact ⟨rfl, hrs.1, hrs.2, hfp.1, hfp.2, hfdr.1, hfdr.2, hadj.1, hadj.2,
    le_trans (by norm_num) hconf.1, hconf.2⟩

/-- Appending below the bound: `updateUserHistoryFor` is a plain append while
the history holds fewer than 1000 entries. -/
theorem updateUserHistoryFor_append {h : List Transaction} (t : Transaction)
    (hlt : h.length < 1000) :
    FeatureEngineer.updateUserHistoryFor h t = h ++ [t] := by
  unfold FeatureEngineer.updateUserHistoryFor
  rw [if_neg]
  simp only [List.length_append, List.length_cons, List.length_nil]
  omega

/-- At the bound: `updateUserHistoryFor` appends and drops the oldest entry. -/
theorem updateUserHistoryFor_tail {h : List Transaction} (t : Transaction)
    (hge : 1000 ≤ h.length) :
    FeatureEngineer.updateUserHistoryFor h t = (h ++ [t]).tail := by
  unfold FeatureEngineer.updateUserHistoryFor
  rw [if_pos]
  simp only [List.length_append, List.length_cons, List.length_nil]
  omega

/-- Folding `updateUserHistoryFor` from a history within the bound keeps
exactly the newest 1000 entries of the concatenation. -/
theorem foldl_updateUserHistoryFor (l : List Transaction) :
    ∀ h : List Transaction, h.length ≤ 1000 →
      l.foldl FeatureEngineer.updateUserHistoryFor h =
        (h ++ l).drop ((h ++ l).length - 1000) := by
  induction l with
  | nil =>
      intro h hh
      have hz : h.length - 1000 = 0 := by omega
      simp [hz]
  | cons t l ih =>
      intro h hh
      rw [List.foldl_cons]
      by_cases hlt : h.length < 1000
      · rw [updateUserHistoryFor_append t hlt,
          ih (h ++ [t]) (by simp only [List.length_append, List.length_cons,
            List.length_nil]; omega)]
        simp [List.append_assoc]
      · have hlen : h.length = 1000 := by omega
        rw [updateUserHistoryFor_tail t (by omega)]
        cases h with
        | nil => simp at hlen
        | cons a h2 =>
            have htl : ((a :: h2) ++ [t]).tail = h2 ++ [t] := rfl
            have hlen2 : h2.length = 999 := by
              simp only [List.length_cons] at hlen
              omega
            rw [htl, ih (h2 ++ [t]) (by simp only [List.length_append,
              List.length_cons, List.length_nil]; omega)]
            have hl1 : ((h2 ++ [t]) ++ l).length - 1000 = l.length := by
              simp only [List.length_append, List.length_cons, List.length_nil]
              omega
            have hl2 : ((a :: h2) ++ t :: l).length - 1000 = l.length + 1 := by
              simp only [List.length_append, List.length_cons]
              omega
            rw [hl1, hl2, List.cons_append, List.drop_succ_cons,
              List.append_assoc, List.singleton_append]

/-- C6: the per-customer history is a bounded FIFO: `updateUserHistoryFor`
appends below the 1000 bound and never exceeds it; from an empty history, a
run of records keeps exactly the newest 1000 entries; for 1001 records the
length is 1000 and exactly the oldest entry is evicted (the result is the
input minus its first element). -/
theorem C6_history_fifo :
    (∀ (h : List Transaction) (t : Transaction), h.length < 1000 →
      FeatureEngineer.updateUserHistoryFor h t = h ++ [t]) ∧
    (∀ (h : List Transaction) (t : Transaction), h.length ≤ 1000 →
      (FeatureEngineer.updateUserHistoryFor h t).length ≤ 1000) ∧
    (∀ l : List Transaction,
      l.foldl FeatureEngineer.updateUserHistoryFor [] =
        l.drop (l.length - 1000)) ∧
    (∀ l : List Transaction, l.length = 1001 →
      (l.foldl FeatureEngineer.updateUserHistoryFor []).length = 1000 ∧
      l.foldl FeatureEngineer.updateUserHistoryFor [] = l.drop 1) := by
  have hfold : ∀ l : List Transaction,
      l.foldl FeatureEngineer.updateUserHistoryFor [] =
        l.drop (l.length - 1000) := by
    intro l
    have := foldl_updateUserHistoryFor l [] (by simp)
    simpa using this
  refine ⟨fun h t hlt => updateUserHistoryFor_append t hlt, ?_, hfold, ?_⟩
  · intro h t hh
    by_cases hlt : h.length < 1000
    · rw [updateUserHistoryFor_append t hlt]
      simp only [List.length_append, List.length_cons, List.length_nil]
      omega
    · rw [updateUserHistoryFor_tail t (by omega)]
      simp only [List.length_tail, List.length_append, List.length_cons,
        List.length_nil]
      omega
  · intro l hlen
    have h1 : l.length - 1000 = 1 := by omega
    constructor
    · rw [hfold, List.length_drop]
      omega
    · rw [hfold, h1]

/-- C6 witness: a concrete run of 1001 records from the empty history ends
with exactly 1000 entries and equals the input list minus its first
element (the oldest is evicted); and a record below the bound is a plain
append. -/
theorem C6_history_fifo_witness :
    (([] : List Transaction).length < 1000 ∧
      FeatureEngineer.updateUserHistoryFor [] (mkTxn 0) = [] ++ [mkTxn 0]) ∧
    ((List.range 1001).map mkTxn).length = 1001 ∧
    ((((List.range 1001).map mkTxn).foldl
        FeatureEngineer.updateUserHistoryFor []).length = 1000 ∧
      ((List.range 1001).map mkTxn).foldl
        FeatureEngineer.updateUserHistoryFor [] =
        ((List.range 1001).map mkTxn).drop 1) :=
  ⟨⟨by simp, C6_history_fifo.1 [] (mkTxn 0) (by simp)⟩,
   by simp,
   C6_history_fifo.2.2.2 ((List.range 1001).map mkTxn) (by simp)⟩

/-- In an association list with no duplicate keys, membership determines the
lookup result. -/
theorem lookup_eq_of_mem_nodup {l : List (String × ℚ)}
    (hnd : (l.map Prod.fst).Nodup) {n : String} {v : ℚ} (hm : (n, v) ∈ l) :
    l.lookup n = some v := by
  induction l with
  | nil => simp at hm
  | cons a l ih =>
      rw [List.map_cons, List.nodup_cons] at hnd
      rcases List.mem_cons.mp hm with heq | hm2
      · obtain ⟨a1, a2⟩ := a
        injection heq.symm with h1 h2
        subst h1
        subst h2
        simp [List.lookup]
      · have hne : ¬ (n = a.1) := by
          rintro rfl
          exact hnd.1 (by simpa using List.mem_map_of_mem Prod.fst hm2)
        obtain ⟨a1, a2⟩ := a
        simp only at hne
        have hbeq : (n == a1) = false := by simpa using hne
        simp only [List.lookup, hbeq]
        exact ih hnd.2 hm2

/-- The SHAP value keys are the 20 feature names, without duplicates. -/
theorem shapValues_keys_nodup (f : FeatureVector) (p : ℚ) :
    ((SHAPExplainer.calculateSHAPValues f p).map Prod.fst).Nodup := by
  have hkeys : (SHAPExplainer.calculateSHAPValues f p).map Prod.fst =
      ["amount", "amount_log", "hour_of_day", "day_of_week", "is_weekend",
       "user_age_days", "user_txn_count_24h", "user_txn_count_7d",
       "user_avg_amount_30d", "user_txn_frequency", "is_first_transaction",
       "amount_ratio_vs_avg", "time_since_last_txn_minutes", "device_age_days",
       "ip_country_match", "billing_shipping_match", "merchant_fraud_rate_30d",
       "merchant_avg_amount", "payment_method_risk_score", "is_crypto"] := rfl
  rw [hkeys]
  decide

/-- Every contribution kept by `getTopFeatures` looks up in the SHAP value
list to its own contribution value. -/
theorem topFeatures_lookup (f : FeatureVector) (p : ℚ)
    {c : FeatureContribution}
    (hc : c ∈ SHAPExplainer.getTopFeatures (SHAPExplainer.calculateSHAPValues f p) 5) :
    (SHAPExplainer.calculateSHAPValues f p).lookup c.feature =
      some c.contribution := by
  have h1 : c ∈ (SHAPExplainer.calculateSHAPValues f p).map
      (fun fv => FeatureContribution.mk fv.1 fv.2 fv.2
        (if fv.2 > 0 then Impact.increase else Impact.decrease) (abs fv.2)) :=
    (List.mergeSort_perm _ _).mem_iff.mp (List.mem_of_mem_take hc)
  obtain ⟨fv, hfv, rfl⟩ := List.mem_map.mp h1
  exact lookup_eq_of_mem_nodup (shapValues_keys_nodup f p) (by simpa using hfv)

/-- Counting bound for two filterMap passes that can never both keep the same
element. -/
theorem length_filterMap_add_le {α β γ : Type} (l : List α)
    (p : α → Option β) (q : α → Option γ)
    (hpq : ∀ x, p x = none ∨ q x = none) :
    (l.filterMap p).length + (l.filterMap q).length ≤ l.length := by
  induction l with
  | nil => simp
  | cons a l ih =>
      rcases hpq a with h | h <;>
        cases hp : p a <;> cases hq : q a <;>
          simp_all [List.filterMap_cons] <;> omega

/-- C8: every entry of `topFeatures` appears in `shapValues` under its own
feature name with an identical contribution value, and the risk and
protective factor lists together never exceed the number of top features. -/
theorem C8_explanation_consistency (env : Env) (features : FeatureVector)
    (fraudProbability : ℚ) :
    List.Forall
      (fun c =>
        (SHAPExplainer.explain env features fraudProbability).shapValues.lookup
          c.feature = some c.contribution)
      (SHAPExplainer.explain env features fraudProbability).topFeatures ∧
    (SHAPExplainer.explain env features fraudProbability).riskFactors.length +
      (SHAPExplainer.explain env features
        fraudProbability).protectiveFactors.length ≤
    (SHAPExplainer.explain env features fraudProbability).topFeatures.length := by
  constructor
  · rw [List.forall_iff_forall_mem]
    intro c hc
    exact topFeatures_lookup features fraudProbability hc
  · refine length_filterMap_add_le _ _ _ ?_
    intro x
    cases hx : x.impact with
    | increase => right; simp [SHAPExplainer.extractProtectiveFactors, hx]
    | decrease => left; simp [SHAPExplainer.extractRiskFactors, hx]
